import Mathlib

/-
Verification of the twin repository's provisioning/deployment orchestration
and chat front-end against its natural-language specification.

The definitions below are shallow embeddings of:
  - frontend/components/twin.tsx           (chat component state machine)
  - scripts/bootstrap-terraform-backend.sh (bootstrap reconciler)
  - scripts/deploy.sh, scripts/destroy.sh  (apply/destroy entry points)
  - .github/workflows/deploy.yml, destroy.yml (pipeline triggers and gates)
  - terraform/backend.tf                   (state backend configuration)
Graph-ordering semantics of the terraform engine itself (an external tool)
are modelled from the spec where noted.
-/

namespace Twin.Frontend

/-- A chat message as held in the component's `messages` state
(twin.tsx, interface Message). Timestamps are modelled as naturals. -/
structure Message where
  id : Nat
  role : String
  content : String
  timestamp : Nat
deriving Repr, DecidableEq

/-- The JSON body POSTed to `/chat` (twin.tsx, fetch body):
`{ message, session_id: sessionId || undefined }`. -/
structure ChatRequest where
  message : String
  session_id : Option String
deriving Repr, DecidableEq

/-- The React state of the Twin component: `messages`, `input`, `isLoading`,
`sessionId` (twin.tsx, useState hooks). -/
structure TwinState where
  messages : List Message
  input : String
  isLoading : Bool
  sessionId : String
deriving Repr, DecidableEq

/-- Initial component state: empty messages, empty input, not loading,
empty session id. -/
def initialState : TwinState :=
  { messages := [], input := "", isLoading := false, sessionId := "" }

/-- Model of JavaScript `String.prototype.trim`: strip leading and trailing
whitespace characters. -/
def jsTrim (s : String) : String :=
  ⟨((s.data.dropWhile Char.isWhitespace).reverse.dropWhile Char.isWhitespace).reverse⟩

/-- The synchronous prefix of `sendMessage` (twin.tsx):
`if (!input.trim() || isLoading) return;` then append the user message,
clear the input, set `isLoading`, and issue the fetch with body
`{ message: userMessage.content, session_id: sessionId || undefined }`.
Returns the updated state and the request issued (`none` when the guard
returns early and no request is made). -/
def sendMessageStart (s : TwinState) (now : Nat) : TwinState × Option ChatRequest :=
  if jsTrim s.input == "" || s.isLoading then (s, none)
  else
    let userMessage : Message :=
      { id := now, role := "user", content := s.input, timestamp := now }
    ({ s with
        messages := s.messages ++ [userMessage],
        input := "",
        isLoading := true },
     some { message := userMessage.content,
            session_id := if s.sessionId == "" then none else some s.sessionId })

/-- Handling of a successful `/chat` response (twin.tsx):
`if (!sessionId) setSessionId(data.session_id);` then append the assistant
message; the `finally` block clears `isLoading`. -/
def handleResponse (s : TwinState) (respSessionId respText : String) (now : Nat) :
    TwinState :=
  let s1 := if s.sessionId == "" then { s with sessionId := respSessionId } else s
  let assistantMessage : Message :=
    { id := now + 1, role := "assistant", content := respText, timestamp := now }
  { s1 with messages := s1.messages ++ [assistantMessage], isLoading := false }

/-- Handling of a failed fetch (twin.tsx catch block): append the fixed
error message; the `finally` block clears `isLoading`. `sessionId` is
untouched. -/
def handleFailure (s : TwinState) (now : Nat) : TwinState :=
  let errorMessage : Message :=
    { id := now + 1, role := "assistant",
      content := "Sorry, I encountered an error. Please try again.", timestamp := now }
  { s with messages := s.messages ++ [errorMessage], isLoading := false }

/-- The send button's `disabled` prop (twin.tsx):
`disabled={!input.trim() || isLoading}`. -/
def sendButtonDisabled (s : TwinState) : Bool :=
  jsTrim s.input == "" || s.isLoading

/-- One UI event: invoking `sendMessage`, receiving a successful response,
or a fetch failure. -/
inductive ChatEvent
  | send (now : Nat)
  | response (respSessionId respText : String) (now : Nat)
  | failure (now : Nat)
deriving Repr, DecidableEq

/-- Apply one event to the component state. -/
def stepEvent (s : TwinState) : ChatEvent → TwinState
  | .send now => (sendMessageStart s now).1
  | .response rid rtext now => handleResponse s rid rtext now
  | .failure now => handleFailure s now

/-- Apply a sequence of events to the component state. -/
def runEvents (s : TwinState) : List ChatEvent → TwinState
  | [] => s
  | e :: es => runEvents (stepEvent s e) es

theorem sessionId_stepEvent (s : TwinState) (e : ChatEvent)
    (h : s.sessionId ≠ "") : (stepEvent s e).sessionId = s.sessionId := by
  cases e with
  | send now =>
      simp only [stepEvent, sendMessageStart]
      split <;> rfl
  | response rid rtext now =>
      simp only [stepEvent, handleResponse]
      have : (s.sessionId == "") = false := by
        simpa [beq_iff_eq] using h
      simp [this]
  | failure now => rfl

theorem sessionId_runEvents (events : List ChatEvent) (s : TwinState)
    (h : s.sessionId ≠ "") : (runEvents s events).sessionId = s.sessionId := by
  induction events generalizing s with
  | nil => rfl
  | cons e es ih =>
      have hstep := sessionId_stepEvent s e h
      have hne : (stepEvent s e).sessionId ≠ "" := by rw [hstep]; exact h
      simp only [runEvents]
      rw [ih (stepEvent s e) hne, hstep]

/-- C9: for every UI state in which the chat input is empty or
whitespace-only, or a request is already in flight (`isLoading` is true),
invoking `sendMessage` (via the Enter key or the send button) changes no
component state and issues no network request; moreover the send button is
disabled in exactly those states. -/
theorem C9_sendMessage_guard (s : TwinState) (now : Nat)
    (h : jsTrim s.input = "" ∨ s.isLoading = true) :
    sendMessageStart s now = (s, none) ∧ sendButtonDisabled s = true := by
  have hg : (jsTrim s.input == "" || s.isLoading) = true := by
    cases h with
    | inl h1 => simp [h1]
    | inr h2 => simp [h2]
  constructor
  · simp [sendMessageStart, hg]
  · simp [sendButtonDisabled, hg]

/-- Witness for C9 at a concrete whitespace-only state. -/
theorem C9_sendMessage_guard_witness :
    sendMessageStart
        { messages := [], input := "   ", isLoading := false, sessionId := "" } 7 =
      ({ messages := [], input := "   ", isLoading := false, sessionId := "" }, none) ∧
    sendButtonDisabled
        { messages := [], input := "   ", isLoading := false, sessionId := "" } = true :=
  C9_sendMessage_guard
    { messages := [], input := "   ", isLoading := false, sessionId := "" } 7
    (Or.inl (by decide))

/-- C10: once the chat session identifier is non-empty it is never changed:
a successful response leaves it untouched, every request is sent with that
same `session_id`, any sequence of further events preserves it, and a
server-generated id is adopted only while `sessionId` is still empty. -/
theorem C10_sessionId_stable (s : TwinState) (h : s.sessionId ≠ "") :
    (∀ rid rtext now, (handleResponse s rid rtext now).sessionId = s.sessionId) ∧
    (∀ now req, (sendMessageStart s now).2 = some req →
      req.session_id = some s.sessionId) ∧
    (∀ events, (runEvents s events).sessionId = s.sessionId) ∧
    (∀ s₀ : TwinState, ∀ rid rtext now, s₀.sessionId = "" →
      (handleResponse s₀ rid rtext now).sessionId = rid) := by
  have hb : (s.sessionId == "") = false := by simpa [beq_iff_eq] using h
  refine ⟨?_, ?_, ?_, ?_⟩
  · intro rid rtext now
    simp [handleResponse, hb]
  · intro now req hreq
    simp only [sendMessageStart] at hreq
    split at hreq
    · exact absurd hreq (by simp)
    · simp only [Option.some.injEq] at hreq
      rw [← hreq]
      simp [hb]
  · intro events
    exact sessionId_runEvents events s h
  · intro s₀ rid rtext now h0
    have hb0 : (s₀.sessionId == "") = true := by simpa [beq_iff_eq] using h0
    simp [handleResponse, hb0]

/-- Witness for C10 at a concrete state with a non-empty session id. -/
theorem C10_sessionId_stable_witness :
    (handleResponse
        { messages := [], input := "hi", isLoading := true, sessionId := "abc123" }
        "other-id" "hello" 9).sessionId = "abc123" :=
  (C10_sessionId_stable
    { messages := [], input := "hi", isLoading := true, sessionId := "abc123" }
    (by decide)).1 "other-id" "hello" 9

end Twin.Frontend

namespace Twin.Bootstrap

/-- The externally-visible commands the bootstrap script can issue
(scripts/bootstrap-terraform-backend.sh), in source order. -/
inductive Step
  | getAccountId
  | createBucket
  | putVersioning
  | putEncryption
  | putPublicAccessBlock
  | createTable
  | waitTable
  | writeBackendConfig
deriving Repr, DecidableEq

/-- Which AWS calls would succeed on this invocation.  `accountIdOk` is
whether `aws sts get-caller-identity` yields a non-empty account id;
`createTableOk` is whether `aws dynamodb create-table` is permitted. -/
structure Aws where
  accountIdOk : Bool
  createBucketOk : Bool
  putVersioningOk : Bool
  putEncryptionOk : Bool
  putPublicAccessBlockOk : Bool
  createTableOk : Bool
deriving Repr, DecidableEq

/-- The pre-existing backend resources and their hardening settings:
the shared state bucket and the DynamoDB lock table. -/
structure BackendState where
  bucketExists : Bool
  tableExists : Bool
  versioning : Bool
  encryption : Bool
  publicAccessBlocked : Bool
deriving Repr, DecidableEq

/-- Result of one bootstrap invocation: either an abort (the script runs
under `set -e`, so a failing command outside the lock-table section stops
it) or completion, with the commands issued, whether the lock-table
warning was printed, and the resulting backend state. -/
inductive Outcome
  | aborted (failedStep : Step) (after : BackendState) (performed : List Step)
  | succeeded (performed : List Step) (warnedLockTable : Bool) (after : BackendState)
deriving Repr, DecidableEq

/-- The lock-table section and the final backend-config write
(bootstrap-terraform-backend.sh lines 76-113): `describe-table` existence
check; if absent, `create-table` inside a `set +e` region — on success a
`wait table-exists` (its status is discarded) and on failure only a
warning; then `backend.hcl` is written and the script completes. -/
def afterBucket (aws : Aws) (s : BackendState) (bucketSteps : List Step) : Outcome :=
  if s.tableExists then
    .succeeded ([.getAccountId] ++ bucketSteps ++ [.writeBackendConfig]) false s
  else if aws.createTableOk then
    .succeeded ([.getAccountId] ++ bucketSteps ++ [.createTable, .waitTable, .writeBackendConfig])
      false { s with tableExists := true }
  else
    .succeeded ([.getAccountId] ++ bucketSteps ++ [.createTable, .writeBackendConfig]) true s

/-- One invocation of scripts/bootstrap-terraform-backend.sh: resolve the
account id (exit 1 if unavailable); `head-bucket` existence check; if the
bucket is absent, create it and apply versioning, encryption and the
public-access block (each aborts the `set -e` script on failure; none of
them runs when the bucket already exists); then the lock-table section. -/
def bootstrapRun (aws : Aws) (s : BackendState) : Outcome :=
  if !aws.accountIdOk then .aborted .getAccountId s [.getAccountId]
  else if s.bucketExists then afterBucket aws s []
  else if !aws.createBucketOk then
    .aborted .createBucket s [.getAccountId, .createBucket]
  else
    let s1 := { s with bucketExists := true }
    if !aws.putVersioningOk then
      .aborted .putVersioning s1 [.getAccountId, .createBucket, .putVersioning]
    else
      let s2 := { s1 with versioning := true }
      if !aws.putEncryptionOk then
        .aborted .putEncryption s2 [.getAccountId, .createBucket, .putVersioning, .putEncryption]
      else
        let s3 := { s2 with encryption := true }
        if !aws.putPublicAccessBlockOk then
          .aborted .putPublicAccessBlock s3
            [.getAccountId, .createBucket, .putVersioning, .putEncryption, .putPublicAccessBlock]
        else
          afterBucket aws { s3 with publicAccessBlocked := true }
            [.createBucket, .putVersioning, .putEncryption, .putPublicAccessBlock]

/-- The S3 backend block of terraform/backend.tf. -/
structure S3BackendConfig where
  encrypt : Bool
  useLockfile : Bool
deriving Repr, DecidableEq

/-- terraform/backend.tf: `encrypt = true`, `use_lockfile = true`. -/
def backendTf : S3BackendConfig := { encrypt := true, useLockfile := true }

/-- State locking needs the DynamoDB lock table only when the backend does
not use the S3 lockfile (backend.tf comment: use lockfile instead of a
DynamoDB table); with the lockfile, the state bucket alone suffices. -/
def lockingNeedsLockTable (cfg : S3BackendConfig) : Bool := !cfg.useLockfile

theorem bootstrap_noop_when_exists (aws : Aws) (s : BackendState)
    (ha : aws.accountIdOk = true) (hb : s.bucketExists = true)
    (ht : s.tableExists = true) :
    bootstrapRun aws s = .succeeded [.getAccountId, .writeBackendConfig] false s := by
  simp [bootstrapRun, afterBucket, ha, hb, ht]

theorem bootstrap_success_state (aws : Aws) (s : BackendState) (p : List Step)
    (w : Bool) (s1 : BackendState)
    (h : bootstrapRun aws s = .succeeded p w s1) :
    aws.accountIdOk = true ∧ s1.bucketExists = true ∧
      (w = false → s1.tableExists = true) := by
  obtain ⟨a1, a2, a3, a4, a5, a6⟩ := aws
  obtain ⟨b1, b2, b3, b4, b5⟩ := s
  cases a1 <;> cases a2 <;> cases a3 <;> cases a4 <;> cases a5 <;> cases a6 <;>
    cases b1 <;> cases b2 <;> simp_all [bootstrapRun, afterBucket] <;>
    (obtain ⟨rfl, rfl, rfl⟩ := h) <;> simp_all

theorem bootstrap_no_recreate (aws : Aws) (s : BackendState) (p : List Step)
    (w : Bool) (s1 : BackendState)
    (h : bootstrapRun aws s = .succeeded p w s1) :
    (s.bucketExists = true → Step.createBucket ∉ p ∧ Step.putVersioning ∉ p ∧
      Step.putEncryption ∉ p ∧ Step.putPublicAccessBlock ∉ p) ∧
    (s.tableExists = true → Step.createTable ∉ p) := by
  obtain ⟨a1, a2, a3, a4, a5, a6⟩ := aws
  obtain ⟨b1, b2, b3, b4, b5⟩ := s
  cases a1 <;> cases a2 <;> cases a3 <;> cases a4 <;> cases a5 <;> cases a6 <;>
    cases b1 <;> cases b2 <;> simp_all [bootstrapRun, afterBucket] <;>
    (obtain ⟨rfl, rfl, rfl⟩ := h) <;> simp_all

theorem bootstrap_warning_source (aws : Aws) (s : BackendState) (p : List Step)
    (s1 : BackendState) (h : bootstrapRun aws s = .succeeded p true s1) :
    s.tableExists = false ∧ aws.createTableOk = false ∧ Step.createTable ∈ p := by
  obtain ⟨a1, a2, a3, a4, a5, a6⟩ := aws
  obtain ⟨b1, b2, b3, b4, b5⟩ := s
  cases a1 <;> cases a2 <;> cases a3 <;> cases a4 <;> cases a5 <;> cases a6 <;>
    cases b1 <;> cases b2 <;> simp_all [bootstrapRun, afterBucket] <;>
    (obtain ⟨rfl, rfl⟩ := h) <;> simp_all

/-- C3: the bootstrap operation is idempotent: an invocation on a state
where the shared state bucket and the lock table already exist succeeds
while issuing no creation and no hardening command; after any fully
successful (unwarned) invocation, a second invocation issues only the
account lookup and the config write; creation/hardening commands are issued
only when the bucket was absent, and the lock-table creation only when the
table was absent. -/
theorem C3_bootstrap_idempotent (aws : Aws) (s : BackendState)
    (ha : aws.accountIdOk = true) :
    (s.bucketExists = true → s.tableExists = true →
      bootstrapRun aws s = .succeeded [.getAccountId, .writeBackendConfig] false s) ∧
    (∀ p s1, bootstrapRun aws s = .succeeded p false s1 →
      bootstrapRun aws s1 = .succeeded [.getAccountId, .writeBackendConfig] false s1) ∧
    (s.bucketExists = true → ∀ p w s1, bootstrapRun aws s = .succeeded p w s1 →
      Step.createBucket ∉ p ∧ Step.putVersioning ∉ p ∧ Step.putEncryption ∉ p ∧
        Step.putPublicAccessBlock ∉ p) ∧
    (s.tableExists = true → ∀ p w s1, bootstrapRun aws s = .succeeded p w s1 →
      Step.createTable ∉ p) := by
  refine ⟨fun hb ht => bootstrap_noop_when_exists aws s ha hb ht, ?_, ?_, ?_⟩
  · intro p s1 h
    obtain ⟨_, hb1, ht1⟩ := bootstrap_success_state aws s p false s1 h
    exact bootstrap_noop_when_exists aws s1 ha hb1 (ht1 rfl)
  · intro hb p w s1 h
    exact (bootstrap_no_recreate aws s p w s1 h).1 hb
  · intro ht p w s1 h
    exact (bootstrap_no_recreate aws s p w s1 h).2 ht

/-- Witness for C3: on a state where both backend resources exist, a run
(with all permissions) performs only the account lookup and config write,
and running again from the resulting state does the same. -/
theorem C3_bootstrap_idempotent_witness :
    bootstrapRun
        ⟨true, true, true, true, true, true⟩
        ⟨true, true, true, true, true⟩ =
      .succeeded [.getAccountId, .writeBackendConfig] false
        ⟨true, true, true, true, true⟩ :=
  (C3_bootstrap_idempotent ⟨true, true, true, true, true, true⟩
    ⟨true, true, true, true, true⟩ rfl).1 rfl rfl

/-- C7: when lock-table creation is refused, bootstrap does not abort: it
completes successfully with only a warning, and with the backend's
`use_lockfile = true` the state bucket alone suffices for locking; a
warning can arise only from lock-table creation failure (any other failing
step, e.g. bucket creation, aborts the run instead). -/
theorem C7_lock_table_optional (aws : Aws) (s : BackendState)
    (ha : aws.accountIdOk = true) (hb : s.bucketExists = true)
    (ht : s.tableExists = false) (hc : aws.createTableOk = false) :
    bootstrapRun aws s =
      .succeeded [.getAccountId, .createTable, .writeBackendConfig] true s ∧
    (∀ aws' s' p s1, bootstrapRun aws' s' = .succeeded p true s1 →
      s'.tableExists = false ∧ aws'.createTableOk = false ∧ Step.createTable ∈ p) ∧
    (∀ aws' s', aws'.accountIdOk = true → s'.bucketExists = false →
      aws'.createBucketOk = false →
      bootstrapRun aws' s' = .aborted .createBucket s' [.getAccountId, .createBucket]) ∧
    lockingNeedsLockTable backendTf = false := by
  refine ⟨?_, ?_, ?_, rfl⟩
  · simp [bootstrapRun, afterBucket, ha, hb, ht, hc]
  · intro aws' s' p s1 h
    exact bootstrap_warning_source aws' s' p s1 h
  · intro aws' s' ha' hb' hc'
    simp [bootstrapRun, ha', hb', hc']

/-- Witness for C7: a concrete run with the lock table absent and its
creation refused completes with the warning rather than aborting. -/
theorem C7_lock_table_optional_witness :
    bootstrapRun
        ⟨true, true, true, true, true, false⟩
        ⟨true, false, true, true, true⟩ =
      .succeeded [.getAccountId, .createTable, .writeBackendConfig] true
        ⟨true, false, true, true, true⟩ :=
  (C7_lock_table_optional ⟨true, true, true, true, true, false⟩
    ⟨true, false, true, true, true⟩ rfl rfl rfl rfl).1

end Twin.Bootstrap

namespace Twin.Workflows

/-- GitHub Actions expression `x || 'dev'`: an absent or empty input falls
back to the default. -/
def orDefault (v : Option String) (d : String) : String :=
  match v with
  | none => d
  | some s => if s == "" then d else s

/-- A trigger of the deploy workflow (.github/workflows/deploy.yml `on:`):
a push naming the branch, or a manual `workflow_dispatch` carrying the
`environment` input. -/
inductive Trigger
  | push (branch : String)
  | workflowDispatch (environment : Option String)
deriving Repr, DecidableEq

/-- deploy.yml fires on `push: branches: [main]` and on any manual
dispatch. -/
def deployTriggerFires : Trigger → Bool
  | .push b => b == "main"
  | .workflowDispatch _ => true

/-- The environment the deploy job targets:
`${{ github.event.inputs.environment || 'dev' }}`; a push carries no
`inputs.environment`. -/
def deployJobEnvironment : Trigger → String
  | .push _ => orDefault none "dev"
  | .workflowDispatch e => orDefault e "dev"

/-- The steps of the destroy job (.github/workflows/destroy.yml), in
order. -/
inductive DestroyWfStep
  | verifyConfirmation
  | checkout
  | configureAwsCredentials
  | setupTerraform
  | runDestroyScript
  | destructionComplete
deriving Repr, DecidableEq

/-- destroy.yml's step list: the confirmation gate runs first, before
checkout, credential configuration, terraform setup and the destroy
script. -/
def destroyWorkflowSteps : List DestroyWfStep :=
  [.verifyConfirmation, .checkout, .configureAwsCredentials,
   .setupTerraform, .runDestroyScript, .destructionComplete]

/-- The `Verify confirmation` step of destroy.yml:
`if [ "confirm" != "environment" ]; then ...; exit 1; fi`. Exit code 0 on
match, 1 on mismatch. -/
def verifyConfirmationExit (environment confirm : String) : Nat :=
  if confirm == environment then 0 else 1

/-- Whether a destroy-job step succeeds for the given inputs; only the
confirmation gate depends on them here (the other steps' own failures are
not at issue for these claims). -/
def destroyStepOk (environment confirm : String) : DestroyWfStep → Bool
  | .verifyConfirmation => verifyConfirmationExit environment confirm == 0
  | _ => true

/-- Run a job's steps in order, stopping at the first failing step
(GitHub Actions skips the remaining steps of a failed job). Returns the
steps that actually ran and whether the job succeeded. -/
def runJobSteps (stepOk : DestroyWfStep → Bool) :
    List DestroyWfStep → List DestroyWfStep × Bool
  | [] => ([], true)
  | st :: rest =>
    if stepOk st then
      let r := runJobSteps stepOk rest
      (st :: r.1, r.2)
    else ([st], false)

/-- One run of the destroy workflow for the given `environment` and
`confirm` inputs. -/
def runDestroyWorkflow (environment confirm : String) :
    List DestroyWfStep × Bool :=
  runJobSteps (destroyStepOk environment confirm) destroyWorkflowSteps

/-- The step that performs the short-lived credential exchange
(`aws-actions/configure-aws-credentials`). -/
def exchangesCredentials : DestroyWfStep → Bool
  | .configureAwsCredentials => true
  | _ => false

/-- The step that can mutate infrastructure state or acquire the state
lock (it invokes scripts/destroy.sh, hence terraform). -/
def mutatesStateOrLocks : DestroyWfStep → Bool
  | .runDestroyScript => true
  | _ => false

/-- The GitHub secrets referenced by deploy.yml and destroy.yml, with what
each holds: the IAM role identifier to assume, the region, and the account
id — configuration values, not long-lived access keys. -/
inductive SecretKind
  | iamRoleArn
  | configValue
  | longLivedAccessKey
deriving Repr, DecidableEq

/-- Secrets read by .github/workflows/deploy.yml (`secrets.AWS_ROLE_ARN`,
`secrets.DEFAULT_AWS_REGION`, `secrets.AWS_ACCOUNT_ID`), classified. -/
def deploySecretRefs : List (String × SecretKind) :=
  [("AWS_ROLE_ARN", .iamRoleArn),
   ("DEFAULT_AWS_REGION", .configValue),
   ("AWS_ACCOUNT_ID", .configValue)]

/-- The trust condition of the IAM role assumed by the workflows
(terraform/github-oidc.tf, `aws_iam_role.github_actions`): the web-identity
token's audience must equal `sts.amazonaws.com` and its subject must match
`repo:<owner/repo>:*` (a `StringLike` with one trailing wildcard, i.e. a
prefix condition). -/
structure OidcTrustCondition where
  audEquals : String
  subLikePrefix : String
deriving Repr, DecidableEq

/-- The trust condition github-oidc.tf attaches for a given repository. -/
def githubActionsTrustCondition (githubRepository : String) : OidcTrustCondition :=
  { audEquals := "sts.amazonaws.com",
    subLikePrefix := "repo:" ++ githubRepository ++ ":" }

/-- Prefix test on strings by their character lists (the meaning of an AWS
`StringLike` pattern whose single `*` is at the end). -/
def strHasPrefix (p s : String) : Bool := p.data.isPrefixOf s.data

/-- Whether `sts:AssumeRoleWithWebIdentity` is allowed for a token with the
given audience and subject claims under the trust condition. -/
def assumeRoleAllowed (c : OidcTrustCondition) (tokenAud tokenSub : String) : Bool :=
  tokenAud == c.audEquals && strHasPrefix c.subLikePrefix tokenSub

/-- C2: when the destroy confirmation input is not exactly the environment
name, the run is rejected at the very first step of destroy.yml: only the
confirmation gate executes (and fails), so neither the credential-exchange
step nor the state-mutating destroy script runs, and the gate precedes the
credential step in the job's step order. -/
theorem C2_reject_before_side_effects (environment confirm : String)
    (h : confirm ≠ environment) :
    runDestroyWorkflow environment confirm = ([.verifyConfirmation], false) ∧
    (∀ st ∈ (runDestroyWorkflow environment confirm).1,
      exchangesCredentials st = false ∧ mutatesStateOrLocks st = false) ∧
    destroyWorkflowSteps.indexOf .verifyConfirmation <
      destroyWorkflowSteps.indexOf .configureAwsCredentials := by
  have hb : (confirm == environment) = false := by simpa [beq_iff_eq] using h
  have hrun : runDestroyWorkflow environment confirm = ([.verifyConfirmation], false) := by
    simp [runDestroyWorkflow, destroyWorkflowSteps, runJobSteps, destroyStepOk,
      verifyConfirmationExit, hb]
  refine ⟨hrun, ?_, by decide⟩
  intro st hst
  rw [hrun] at hst
  simp only [List.mem_singleton] at hst
  subst hst
  exact ⟨rfl, rfl⟩

/-- Witness for C2 at the concrete rejected run `destroy prod --confirm=dev`. -/
theorem C2_reject_before_side_effects_witness :
    runDestroyWorkflow "prod" "dev" = ([.verifyConfirmation], false) :=
  (C2_reject_before_side_effects "prod" "dev" (by decide)).1

/-- C4 counterexample: `destroy prod` confirmed with `dev` is a
confirmation mismatch, yet the confirmation gate terminates with exit code
1, not the claimed distinct exit code 3. -/
theorem C4_counterexample :
    ("dev" : String) ≠ "prod" ∧ verifyConfirmationExit "prod" "dev" = 1 ∧
    verifyConfirmationExit "prod" "dev" ≠ 3 := by
  refine ⟨by decide, by decide, by decide⟩

/-- C4 amended: a confirmation mismatch terminates the confirmation gate
with exit code 1 — the same generic failure code as other errors, with no
distinct code 3 — and the destroy job fails. -/
theorem C4_mismatch_exits_one (environment confirm : String)
    (h : confirm ≠ environment) :
    verifyConfirmationExit environment confirm = 1 ∧
    verifyConfirmationExit environment confirm ≠ 3 ∧
    (runDestroyWorkflow environment confirm).2 = false := by
  have hb : (confirm == environment) = false := by simpa [beq_iff_eq] using h
  refine ⟨by simp [verifyConfirmationExit, hb], ?_, ?_⟩
  · simp [verifyConfirmationExit, hb]
  · simp [runDestroyWorkflow, destroyWorkflowSteps, runJobSteps, destroyStepOk,
      verifyConfirmationExit, hb]

/-- Witness for the amended C4 at the concrete mismatch `prod` / `dev`. -/
theorem C4_mismatch_exits_one_witness :
    verifyConfirmationExit "prod" "dev" = 1 :=
  (C4_mismatch_exits_one "prod" "dev" (by decide)).1

/-- C5: every automatic (push-triggered) deploy run targets the fixed
default environment `dev`; a run targeting any other environment can only
arise from a manual dispatch whose explicit environment input names it. -/
theorem C5_push_deploys_default :
    (∀ b, deployTriggerFires (.push b) = true →
      deployJobEnvironment (.push b) = "dev") ∧
    (∀ t, deployTriggerFires t = true → deployJobEnvironment t ≠ "dev" →
      ∃ e, t = .workflowDispatch (some e) ∧ deployJobEnvironment t = e) := by
  constructor
  · intro b _
    rfl
  · intro t _ hne
    cases t with
    | push b => exact absurd rfl hne
    | workflowDispatch e =>
        cases e with
        | none => exact absurd rfl hne
        | some s =>
            by_cases hs : (s == "") = true
            · exact absurd (by simp [deployJobEnvironment, orDefault, hs]) hne
            · exact ⟨s, rfl, by simp [deployJobEnvironment, orDefault, hs]⟩

/-- Witness for C5: a push to main deploys to `dev`; targeting `prod`
requires the manual dispatch that names it. -/
theorem C5_push_deploys_default_witness :
    deployJobEnvironment (.push "main") = "dev" ∧
    ∃ e, Trigger.workflowDispatch (some "prod") = .workflowDispatch (some e) ∧
      deployJobEnvironment (.workflowDispatch (some "prod")) = e :=
  ⟨C5_push_deploys_default.1 "main" rfl,
   C5_push_deploys_default.2 (.workflowDispatch (some "prod")) rfl (by decide)⟩

/-- C8: the deployment workflow reads no long-lived static secret — every
secret it references is a role identifier or plain configuration — and the
role it assumes is granted exactly to short-lived web-identity tokens whose
audience is `sts.amazonaws.com` and whose subject carries the calling
repository's identity (`repo:<owner/repo>:` prefix). -/
theorem C8_oidc_no_static_secret (repo aud sub : String) :
    (∀ pr ∈ deploySecretRefs, pr.2 ≠ SecretKind.longLivedAccessKey) ∧
    (assumeRoleAllowed (githubActionsTrustCondition repo) aud sub = true ↔
      aud = "sts.amazonaws.com" ∧
        strHasPrefix ("repo:" ++ repo ++ ":") sub = true) := by
  constructor
  · intro pr hpr
    fin_cases hpr <;> decide
  · simp [assumeRoleAllowed, githubActionsTrustCondition, Bool.and_eq_true,
      beq_iff_eq]

/-- Witness for C8: a token issued to this repository's main branch with
the STS audience is accepted by the trust condition. -/
theorem C8_oidc_no_static_secret_witness :
    assumeRoleAllowed (githubActionsTrustCondition "x7petk/twin")
      "sts.amazonaws.com" "repo:x7petk/twin:ref:refs/heads/main" = true :=
  (C8_oidc_no_static_secret "x7petk/twin" "sts.amazonaws.com"
    "repo:x7petk/twin:ref:refs/heads/main").2.mpr ⟨rfl, by decide⟩

end Twin.Workflows

namespace Twin.Graph

/-- Identity of a resource node: `(type, local_name)`. -/
structure NodeId where
  type : String
  localName : String
deriving Repr, DecidableEq

/-- A declared resource node: its identity, the node identities its
attribute values reference, and its explicit dependencies (`depends_on`). -/
structure ResourceNode where
  id : NodeId
  references : List NodeId
  explicitDependencies : List NodeId
deriving Repr, DecidableEq

/-- The producers a node depends on: attribute references united with its
explicit dependencies. -/
def producers (n : ResourceNode) : List NodeId :=
  n.references ++ n.explicitDependencies

/-- Pick the first declared node all of whose producers are already done
(ties broken by declaration order). -/
def pickReady (done : List NodeId) : List ResourceNode → Option ResourceNode
  | [] => none
  | n :: rest =>
    if (producers n).all (fun p => done.contains p) then some n
    else pickReady done rest

/-- Fuelled Kahn-style scheduling loop for `topoOrder`. -/
def topoGo : Nat → List ResourceNode → List NodeId → List NodeId
  | 0, _, done => done
  | fuel + 1, remaining, done =>
    match pickReady done remaining with
    | none => done
    | some n =>
        topoGo fuel (remaining.filter (fun m => !(m.id == n.id))) (done ++ [n.id])

/-- Modelled from the spec: the apply order is a topological order of the
graph (producers before consumers), ties broken by declaration order; the
terraform engine that realizes this ordering is an external tool not in
the repository. -/
def topoOrder (nodes : List ResourceNode) : List NodeId :=
  topoGo nodes.length nodes []

/-- One step of a destroy run: emptying a stateful-storage node's contents
(`aws s3 rm --recursive`) or deleting a node. -/
inductive DestroyStep
  | emptyContents (b : NodeId)
  | delete (n : NodeId)
deriving Repr, DecidableEq

/-- A node classified as stateful storage: an object bucket. -/
def isStatefulStorage (n : ResourceNode) : Bool :=
  n.id.type == "aws_s3_bucket"

/-- The destroy run, following scripts/destroy.sh: FIRST every
stateful-storage node (S3 bucket) is emptied, THEN `terraform destroy`
deletes all nodes in reverse topological order (the deletion ordering is
modelled from the spec, the emptying prologue from the script). -/
def destroyRunSteps (nodes : List ResourceNode) : List DestroyStep :=
  ((nodes.filter isStatefulStorage).map (fun n => .emptyContents n.id))
    ++ ((topoOrder nodes).reverse.map .delete)

/-- The scenario's bucket node. -/
def bucketId : NodeId := ⟨"aws_s3_bucket", "Bucket"⟩

/-- The scenario's compute function node. -/
def functionId : NodeId := ⟨"aws_lambda_function", "Function"⟩

/-- The scenario's edge distribution node. -/
def edgeId : NodeId := ⟨"aws_cloudfront_distribution", "Edge"⟩

/-- The spec's scenario graph: `{Bucket, Function dependsOn Bucket, Edge
references Function.address}`. -/
def scenarioNodes : List ResourceNode :=
  [⟨bucketId, [], []⟩,
   ⟨functionId, [], [bucketId]⟩,
   ⟨edgeId, [functionId], []⟩]

/-- Whether, in a run, the emptying of node `b` happens immediately before
`b`'s own deletion (the claimed placement): the step right after the
emptying is the deletion. -/
def emptiedImmediatelyBeforeOwnDeletion (steps : List DestroyStep) (b : NodeId) : Bool :=
  (steps.indexOf (.emptyContents b)) + 1 = steps.indexOf (.delete b)

/-- C1 counterexample: in the destroy run of the scenario graph the bucket
is emptied as the very first step of the run — before the Edge and
Function deletions — not immediately before the bucket's own deletion
step, refuting the claimed placement. -/
theorem C1_counterexample :
    destroyRunSteps scenarioNodes =
      [.emptyContents bucketId, .delete edgeId, .delete functionId, .delete bucketId] ∧
    emptiedImmediatelyBeforeOwnDeletion (destroyRunSteps scenarioNodes) bucketId = false ∧
    (destroyRunSteps scenarioNodes).indexOf (.emptyContents bucketId) = 0 := by
  refine ⟨by decide, by decide, by decide⟩

/-- C1 amended: for the scenario graph the deletions occur in reverse
topological order `Edge, Function, Bucket`, and the bucket is emptied
before its own deletion — as a prologue at the start of the run, before
any deletion, rather than as a pre-step immediately before the bucket's
deletion; in general every stateful-storage node of the graph is emptied
before every deletion of the run. -/
theorem C1_destroy_order :
    topoOrder scenarioNodes = [bucketId, functionId, edgeId] ∧
    destroyRunSteps scenarioNodes =
      [.emptyContents bucketId, .delete edgeId, .delete functionId, .delete bucketId] ∧
    (destroyRunSteps scenarioNodes).indexOf (.emptyContents bucketId) <
      (destroyRunSteps scenarioNodes).indexOf (.delete bucketId) ∧
    (∀ nodes : List ResourceNode, ∀ i j : Nat, ∀ b n : NodeId,
      (destroyRunSteps nodes).get? i = some (.emptyContents b) →
      (destroyRunSteps nodes).get? j = some (.delete n) → i < j) := by
  refine ⟨by decide, by decide, by decide, ?_⟩
  intro nodes i j b n hi hj
  by_contra hij
  push_neg at hij
  have hji : j ≤ i := hij
  set es := (nodes.filter isStatefulStorage).map
    (fun n => DestroyStep.emptyContents n.id) with hes
  set ds := (topoOrder nodes).reverse.map DestroyStep.delete with hds
  have hsteps : destroyRunSteps nodes = es ++ ds := rfl
  rw [hsteps] at hi hj
  rcases lt_or_le i es.length with hlt | hle
  · rcases lt_or_le j es.length with hjlt | hjle
    · -- a delete step inside the emptying prologue is impossible
      rw [List.get?_append hjlt] at hj
      have := List.get?_mem hj
      simp only [hes, List.mem_map] at this
      obtain ⟨_, _, habs⟩ := this
      exact DestroyStep.noConfusion habs
    · omega
  · -- an emptying step inside the deletion suffix is impossible
    rw [List.get?_append_right hle] at hi
    have := List.get?_mem hi
    simp only [hds, List.mem_map] at this
    obtain ⟨_, _, habs⟩ := this
    exact DestroyStep.noConfusion habs

end Twin.Graph

namespace Twin.Scripts

/-- The packaged deployable artifact file `backend/lambda-deployment.zip`:
either the real built package or the placeholder dummy zip. -/
inductive ArtifactFile
  | builtPackage
  | dummyZip
deriving Repr, DecidableEq

/-- Failure modes of the deploy/destroy entry-point scripts relevant to
artifact handling. -/
inductive RunError
  | missingEnvironmentArg
  | unknownWorkspace
  | lambdaBuildFailed
  | missingArtifact
deriving Repr, DecidableEq

/-- destroy.sh's artifact substitution:
`if [ ! -f ../backend/lambda-deployment.zip ]; then echo dummy | zip ...; fi`
— when the packaged deployable is absent a dummy zip is created. -/
def ensureLambdaZipForDestroy (artifact : Option ArtifactFile) : ArtifactFile :=
  match artifact with
  | some a => a
  | none => .dummyZip

/-- One run of scripts/destroy.sh as far as artifact handling is concerned:
argument check (`exit 1` when no environment is given), workspace check
(`exit 1` when unknown), dummy-zip substitution, then `terraform destroy`,
whose input contract requires the artifact file to exist. Returns the
artifact file the destroy proceeded with. -/
def destroyScriptRun (envArgGiven workspaceExists : Bool)
    (artifact : Option ArtifactFile) : Except RunError ArtifactFile :=
  if !envArgGiven then .error .missingEnvironmentArg
  else if !workspaceExists then .error .unknownWorkspace
  else
    let zip := ensureLambdaZipForDestroy artifact
    .ok zip

/-- One run of scripts/deploy.sh as far as artifact handling is concerned:
it first builds the Lambda package (`cd backend && uv run deploy.py`);
under `set -e` a failed build is a hard error and terraform apply is never
reached; a successful build yields the real package. -/
def deployScriptRun (buildOk : Bool) : Except RunError ArtifactFile :=
  if !buildOk then .error .lambdaBuildFailed
  else .ok .builtPackage

/-- C6: a destroy run never fails for lack of the packaged artifact: with
the artifact absent the script substitutes the placeholder dummy zip and
proceeds, and in every destroy run that reaches terraform some artifact
file is present; an apply run whose artifact cannot be produced is a hard
error. -/
theorem C6_destroy_placeholder (artifact : Option ArtifactFile) :
    destroyScriptRun true true artifact ≠ .error .missingArtifact ∧
    destroyScriptRun true true none = .ok .dummyZip ∧
    (∃ zip, destroyScriptRun true true artifact = .ok zip) ∧
    deployScriptRun false = .error .lambdaBuildFailed := by
  refine ⟨?_, rfl, ⟨ensureLambdaZipForDestroy artifact, rfl⟩, rfl⟩
  intro hcontra
  simp [destroyScriptRun] at hcontra

/-- Witness for C6: a destroy run with no artifact at all succeeds with the
dummy zip substituted. -/
theorem C6_destroy_placeholder_witness :
    destroyScriptRun true true none = .ok .dummyZip :=
  (C6_destroy_placeholder none).2.1

end Twin.Scripts
